import Mathlib

/-!
Shallow embedding of the configuration and structured-logging core of the
autonomous-trading-ecosystem-evolution-engine repository (src/config.py and
src/logger.py), together with theorems settling the frozen claims about it.

Modelling conventions:
* A Python exception is a record of its class name and message (`PyExn`).
* The process environment is an opaque total lookup `Env : String → Option String`;
  `os.getenv(k, d)` is `getenv env k d`.
* The firebase_admin / google-cloud-firestore SDK is opaque: its process-global
  state (`firebase_admin._apps`, the number of `initialize_app` invocations, the
  client it would hand out, and whether credential construction would fail) is
  `FBState`, threaded explicitly through `Config` construction.
* `datetime.utcnow()` readings are abstracted to a monotone clock value `Nat`
  supplied at each call; LogEntry.timestamp carries that reading.
* Code that can raise returns `Except PyExn _`; a Python `try/except Exception`
  is a `match` on that result.
-/

namespace ATEE

/-- A Python exception value: its class name (kind) and its `str(...)` text. -/
structure PyExn where
  kind : String
  msg : String
deriving Repr, DecidableEq

/-- `str(e)` for an exception object. -/
def PyExn.str (e : PyExn) : String := e.msg

/-- The process environment: `os.environ` as an opaque key to value lookup. -/
def Env : Type := String → Option String

/-- `os.getenv(key, dflt)`. -/
def getenv (env : Env) (key dflt : String) : String := (env key).getD dflt

/-! src/config.py -/

/-- `class TradingMode(Enum)` with members PAPER, LIVE, BACKTEST (config.py:14-18). -/
inductive TradingMode
  | PAPER
  | LIVE
  | BACKTEST
deriving Repr, DecidableEq

/-- The `.value` string of each TradingMode member. -/
def TradingMode.value : TradingMode → String
  | .PAPER => "paper"
  | .LIVE => "live"
  | .BACKTEST => "backtest"

/-- `TradingMode(s)`: the Enum call, returning the member whose value is `s`
and raising `ValueError` otherwise (Python Enum lookup semantics for
config.py:48). -/
def TradingMode.ofValue (s : String) : Except PyExn TradingMode :=
  if s = "paper" then .ok .PAPER
  else if s = "live" then .ok .LIVE
  else if s = "backtest" then .ok .BACKTEST
  else .error { kind := "ValueError", msg := s ++ " is not a valid TradingMode" }

/-- One step of Python `str.replace('\\n', '\n')` (left-to-right,
non-overlapping): every occurrence of backslash-n becomes a newline
character (config.py:33). -/
def replBN (l : List Char) : List Char :=
  match l with
  | [] => []
  | [c] => [c]
  | c1 :: c2 :: rest =>
    if c1 = '\\' ∧ c2 = 'n' then '\n' :: replBN rest
    else c1 :: replBN (c2 :: rest)

/-- Whether a character list contains a literal backslash-n escape sequence. -/
def hasBN (l : List Char) : Bool :=
  match l with
  | [] => false
  | [_] => false
  | c1 :: c2 :: rest => (c1 = '\\' && c2 = 'n') || hasBN (c2 :: rest)

/-- `s.replace('\\n', '\n')` on strings. -/
def pyReplaceBN (s : String) : String := (replBN s.data).asString

/-- `@dataclass class FirebaseConfig` (config.py:20-27). -/
structure FirebaseConfig where
  project_id : String
  private_key_id : String
  private_key : String
  client_email : String
  token_uri : String
deriving Repr, DecidableEq

/-- `FirebaseConfig.from_env` (config.py:29-42): reads the five credential
environment variables (token_uri keeps its dataclass default), normalizing the
private key's backslash-n escapes to real newlines. The `try` body consists of
total lookups with defaults, so the `except` branch returning `None` is
unreachable under this total-environment model; the result is always `some`. -/
def FirebaseConfig.from_env (env : Env) : Option FirebaseConfig :=
  let private_key := pyReplaceBN (getenv env "FIREBASE_PRIVATE_KEY" "")
  some
    { project_id := getenv env "FIREBASE_PROJECT_ID" ""
      private_key_id := getenv env "FIREBASE_PRIVATE_KEY_ID" ""
      private_key := private_key
      client_email := getenv env "FIREBASE_CLIENT_EMAIL" ""
      token_uri := "https://oauth2.googleapis.com/token" }

/-- The opaque google-cloud-firestore `Client`: all this core uses of it is
`collection("ecosystem_logs").add(...)`, so its behaviour is whether that add
raises (`some` exception) or succeeds (`none`). -/
structure Client where
  addFails : Option PyExn
deriving Repr, DecidableEq

/-- Process-global state of the opaque firebase_admin SDK:
`apps` is the size of `firebase_admin._apps`; `appConstructions` counts
`initialize_app` invocations (underlying remote-client constructions);
`client` is the client `firestore.client()` hands out for the active app;
`certFails` is `some e` when building `credentials.Certificate(...)` from the
resolved credentials would raise `e`. -/
structure FBState where
  apps : Nat
  appConstructions : Nat
  client : Client
  certFails : Option PyExn
deriving Repr, DecidableEq

/-- `firebase_admin.initialize_app(cred)`: registers a new app (config.py:75). -/
def initApp (s : FBState) : FBState :=
  { s with apps := s.apps + 1, appConstructions := s.appConstructions + 1 }

/-- The message logged by `_init_firebase` when running without credentials
(config.py:60). -/
def localModeWarning : String :=
  "Firebase credentials not found. Running in local mode."

/-- `Config._init_firebase` (config.py:57-82), with `self.firebase_config`
passed in and the SDK state threaded explicitly. Returns the resulting
`self.firestore_client`, the new SDK state, and the `logging` lines emitted.
Absent credentials or an empty project id short-circuit to local mode; the
`try` body guards `initialize_app` behind `if not firebase_admin._apps`; any
exception in the body is caught, logged, and leaves the client `None`. -/
def Config.init_firebase (fc : Option FirebaseConfig) (s : FBState) :
    Option Client × FBState × List String :=
  match fc with
  | none => (none, s, [localModeWarning])
  | some c =>
    if c.project_id = "" then (none, s, [localModeWarning])
    else
      match s.certFails with
      | some e => (none, s, ["Failed to initialize Firebase: " ++ e.str])
      | none =>
        let s1 := if s.apps = 0 then initApp s else s
        (some s1.client, s1, ["Firebase Firestore initialized successfully"])

/-- The resolved `Config` object (config.py:44-55): mode, exchange name, log
level, credential bundle, and the shared firestore client (or `None`). -/
structure Config where
  mode : TradingMode
  exchange_name : String
  log_level : String
  firebase_config : Option FirebaseConfig
  firestore_client : Option Client
deriving Repr, DecidableEq

/-- `Config.__init__` (config.py:47-55): resolves the trading mode (raising
`ValueError` on an unrecognized `TRADING_MODE` string), exchange name and log
level from the environment, loads the credential bundle, and runs
`_init_firebase`. Returns the constructed object, the new SDK state, and the
log lines, or the exception that escaped construction. -/
def Config.init (env : Env) (s : FBState) :
    Except PyExn (Config × FBState × List String) :=
  match TradingMode.ofValue (getenv env "TRADING_MODE" "paper") with
  | .error e => .error e
  | .ok m =>
    let fc := FirebaseConfig.from_env env
    let r := Config.init_firebase fc s
    .ok
      ({ mode := m
         exchange_name := getenv env "EXCHANGE_NAME" "binance"
         log_level := getenv env "LOG_LEVEL" "INFO"
         firebase_config := fc
         firestore_client := r.1 }, r.2.1, r.2.2)

/-! src/logger.py -/

/-- `@dataclass class LogEntry` (logger.py:12-26): the structured record
written to the remote sink. `timestamp` carries the `datetime.utcnow()`
reading at emission, abstracted to a monotone `Nat` clock value. -/
structure LogEntry where
  timestamp : Nat
  level : String
  component : String
  message : String
  agent_id : Option String
  strategy_id : Option String
  trade_id : Option String
  error_details : Option String
deriving Repr, DecidableEq

/-- The `**kwargs` a call site may pass through a level method into
`LogEntry(...)`: the remaining optional structured fields. -/
structure Kwargs where
  strategy_id : Option String
  trade_id : Option String
deriving Repr, DecidableEq

/-- The empty `**kwargs`. -/
def Kwargs.none_ : Kwargs := { strategy_id := none, trade_id := none }

/-- An observable effect of a logging call: a console line (through the
`logging` handler on stdout) or an invocation of
`collection("ecosystem_logs").add(...)` on the remote client carrying the
structured entry. -/
inductive Event
  | consoleLine (level : String) (line : String)
  | remoteAdd (collection : String) (entry : LogEntry)
deriving Repr, DecidableEq

/-- Whether an event is a remote-client invocation. -/
def Event.isRemote : Event → Bool
  | .remoteAdd _ _ => true
  | _ => false

/-- `client.collection("ecosystem_logs").add(d)` outcome: raises exactly when
the opaque client is set to fail (logger.py:72-73). -/
def Client.add (cl : Client) : Except PyExn Unit :=
  match cl.addFails with
  | none => .ok ()
  | some e => .error e

/-- `class EcosystemLogger` instance state (logger.py:28-54): component name,
optional agent id, and the shared remote client borrowed from config (or
`None`). -/
structure EcosystemLogger where
  component_name : String
  agent_id : Option String
  firestore_client : Option Client
deriving Repr, DecidableEq

/-- `EcosystemLogger.__init__` (logger.py:31-54): binds the console handler,
then tries `from config import config` — importing the module runs the
module-level `config = Config()` — and takes `config.firestore_client`;
only `ImportError` is caught (leaving the client `None`), every other
exception escaping the import propagates to the caller. `imported` is the
outcome of that import. -/
def EcosystemLogger.init (component_name : String) (agent_id : Option String)
    (imported : Except PyExn Config) : Except PyExn EcosystemLogger :=
  match imported with
  | .ok cfg =>
    .ok { component_name := component_name, agent_id := agent_id
          firestore_client := cfg.firestore_client }
  | .error e =>
    if e.kind = "ImportError" then
      .ok { component_name := component_name, agent_id := agent_id
            firestore_client := none }
    else .error e

/-- `EcosystemLogger.__init__` with the import outcome produced by actually
constructing `Config` from the environment and SDK state (logger.py:50-54 with
config.py:84-85). -/
def EcosystemLogger.initFromConfig (component_name : String)
    (agent_id : Option String) (env : Env) (s : FBState) :
    Except PyExn EcosystemLogger :=
  EcosystemLogger.init component_name agent_id
    ((Config.init env s).map fun r => r.1)

/-- The `LogEntry(...)` constructed by `_log_to_firestore` (logger.py:62-69):
timestamp from the clock at emission, the level tag, the logger's component
and agent id, the message, and the call site's structured fields. -/
def EcosystemLogger.mkEntry (lg : EcosystemLogger) (now : Nat)
    (level message : String) (kw : Kwargs) (error_details : Option String) :
    LogEntry :=
  { timestamp := now
    level := level
    component := lg.component_name
    message := message
    agent_id := lg.agent_id
    strategy_id := kw.strategy_id
    trade_id := kw.trade_id
    error_details := error_details }

/-- `EcosystemLogger._log_to_firestore` (logger.py:56-77): returns immediately
when no client is bound; otherwise builds the entry and attempts a single
remote add inside `try/except Exception` — on failure the exception is caught
and a console-only error line is emitted via `self.logger.error`. The result
is the list of effects in order plus the call's outcome (which the catch makes
`ok` on every path; `except Exception` covers every `PyExn`). -/
def EcosystemLogger.log_to_firestore (lg : EcosystemLogger) (now : Nat)
    (level message : String) (kw : Kwargs) (error_details : Option String) :
    List Event × Except PyExn Unit :=
  match lg.firestore_client with
  | none => ([], .ok ())
  | some cl =>
    let entry := lg.mkEntry now level message kw error_details
    match cl.add with
    | .ok _ => ([.remoteAdd "ecosystem_logs" entry], .ok ())
    | .error e =>
      ([.remoteAdd "ecosystem_logs" entry,
        .consoleLine "ERROR" ("Failed to log to Firestore: " ++ e.str)],
       .ok ())

/-- `EcosystemLogger.info` (logger.py:79-82): console line first, then the
best-effort remote mirror. -/
def EcosystemLogger.info (lg : EcosystemLogger) (now : Nat) (message : String)
    (kw : Kwargs) : List Event × Except PyExn Unit :=
  let r := lg.log_to_firestore now "INFO" message kw none
  (.consoleLine "INFO" message :: r.1, r.2)

/-- `EcosystemLogger.warning` (logger.py:84-87). -/
def EcosystemLogger.warning (lg : EcosystemLogger) (now : Nat)
    (message : String) (kw : Kwargs) : List Event × Except PyExn Unit :=
  let r := lg.log_to_firestore now "WARNING" message kw none
  (.consoleLine "WARNING" message :: r.1, r.2)

/-- How an f-string renders an `Optional[str]`: `None` prints as "None". -/
def pyStrOpt : Option String → String
  | none => "None"
  | some s => s

/-- `EcosystemLogger.error` (logger.py:89-93): `error_details` is
`str(error) if error else None` (exception objects are truthy), the console
line interpolates message and details, and the remote mirror carries
`error_details` explicitly. -/
def EcosystemLogger.error (lg : EcosystemLogger) (now : Nat) (message : String)
    (error : Option PyExn) (kw : Kwargs) : List Event × Except PyExn Unit :=
  let error_details := Option.map PyExn.str error
  let r := lg.log_to_firestore now "ERROR" message kw error_details
  (.consoleLine "ERROR" (message ++ ": " ++ pyStrOpt error_details) :: r.1, r.2)

/-- Modelled from the spec: the body of `EcosystemLogger.critical` is missing
from the source (logger.py ends at its signature on line 95); per the spec
every level method writes its message to console unconditionally and then
best-effort mirrors it to the remote sink with its level tag. -/
def EcosystemLogger.critical (lg : EcosystemLogger) (now : Nat)
    (message : String) (kw : Kwargs) : List Event × Except PyExn Unit :=
  let r := lg.log_to_firestore now "CRITICAL" message kw none
  (.consoleLine "CRITICAL" message :: r.1, r.2)

/-! Concrete inputs used by counterexamples and witnesses -/

/-- A fresh SDK state: no app yet, a healthy client, credential construction
succeeds. -/
def fb0 : FBState :=
  { apps := 0, appConstructions := 0, client := { addFails := none },
    certFails := none }

/-- An environment whose TRADING_MODE is an unrecognized string. -/
def envBad : Env :=
  fun k => if k = "TRADING_MODE" then some "turbo" else none

/-- An environment with a valid live mode and a non-empty project id. -/
def envLive : Env :=
  fun k =>
    if k = "TRADING_MODE" then some "live"
    else if k = "FIREBASE_PROJECT_ID" then some "proj" else none

/-- An environment carrying only a private key with no escape sequences. -/
def envKey : Env :=
  fun k => if k = "FIREBASE_PRIVATE_KEY" then some "abc" else none

/-- A logger with no remote client bound. -/
def lgNone : EcosystemLogger :=
  { component_name := "core", agent_id := none, firestore_client := none }

/-- A remote client whose add always raises. -/
def clBad : Client := { addFails := some { kind := "RuntimeError", msg := "down" } }

/-- A logger bound to the failing client. -/
def lgBad : EcosystemLogger :=
  { component_name := "core", agent_id := some "a1", firestore_client := some clBad }

/-- A healthy remote client. -/
def clOk : Client := { addFails := none }

/-- A logger bound to the healthy client. -/
def lgOk : EcosystemLogger :=
  { component_name := "core", agent_id := none, firestore_client := some clOk }

/-! Shared lemmas -/

/-- A character list with no backslash-n escape is left unchanged by the
replacement. -/
theorem replBN_of_not_hasBN (l : List Char) (h : hasBN l = false) :
    replBN l = l := by
  induction l with
  | nil => rfl
  | cons c t ih =>
    cases t with
    | nil => rfl
    | cons c2 rest =>
      simp only [hasBN, Bool.or_eq_false_iff, Bool.and_eq_false_iff,
        decide_eq_false_iff_not] at h
      obtain ⟨h1, h2⟩ := h
      have hcond : ¬(c = '\\' ∧ c2 = 'n') := by
        rintro ⟨rfl, rfl⟩
        rcases h1 with h | h <;> exact h rfl
      simp only [replBN, if_neg hcond]
      rw [ih h2]

/-- The leftmost backslash-n escape is replaced by a newline and replacement
continues after it. -/
theorem replBN_append (a b : List Char) (ha : hasBN a = false) :
    replBN (a ++ '\\' :: 'n' :: b) = a ++ '\n' :: replBN b := by
  induction a with
  | nil =>
    simp [replBN]
  | cons c t ih =>
    cases t with
    | nil =>
      have hcn : ¬(c = '\\' ∧ ('\\' : Char) = 'n') := by
        rintro ⟨_, h⟩
        exact absurd h (by decide)
      simp [replBN, if_neg hcn]
    | cons c2 t2 =>
      simp only [hasBN, Bool.or_eq_false_iff, Bool.and_eq_false_iff,
        decide_eq_false_iff_not] at ha
      obtain ⟨h1, h2⟩ := ha
      have hcond : ¬(c = '\\' ∧ c2 = 'n') := by
        rintro ⟨rfl, rfl⟩
        rcases h1 with h | h <;> exact h rfl
      have key := ih h2
      simp only [List.cons_append] at key ⊢
      simp only [replBN, if_neg hcond]
      rw [key]

/-- Every remote-add event emitted by `_log_to_firestore` carries the clock
reading of that call as its timestamp. -/
theorem timestamp_of_remoteAdd (lg : EcosystemLogger) (t : Nat)
    (lv m : String) (kw : Kwargs) (ed : Option String) (c : String)
    (e : LogEntry)
    (h : Event.remoteAdd c e ∈ (lg.log_to_firestore t lv m kw ed).1) :
    e.timestamp = t := by
  cases hcl : lg.firestore_client with
  | none =>
    simp [EcosystemLogger.log_to_firestore, hcl] at h
  | some cl =>
    cases hadd : cl.add with
    | ok u =>
      simp [EcosystemLogger.log_to_firestore, hcl, hadd] at h
      rw [h.2]
      rfl
    | error ex =>
      simp [EcosystemLogger.log_to_firestore, hcl, hadd] at h
      rw [h.2]
      rfl

/-! Claim C1 -/

/-- C1, counterexample: with `TRADING_MODE` set to the unrecognized string
"turbo", `Config` construction does not return the "paper" default — it fails
with a `ValueError`, refuting the claim that mode resolution never fails on an
unrecognized string. -/
theorem c1_counterexample :
    Config.init envBad fb0 =
      .error { kind := "ValueError", msg := "turbo is not a valid TradingMode" } := by
  rfl

/-- C1 (amended): for every valid `TRADING_MODE` value, mode resolution during
`Config` construction returns the matching enumerated value; when the variable
is absent it returns the "paper" default without failing; but for any other
string, `Config` construction raises a `ValueError` instead of defaulting. -/
theorem c1_mode_resolution (env : Env) (s : FBState) :
    (∀ m : TradingMode, env "TRADING_MODE" = some m.value →
      ∃ r, Config.init env s = .ok r ∧ r.1.mode = m) ∧
    (env "TRADING_MODE" = none →
      ∃ r, Config.init env s = .ok r ∧ r.1.mode = .PAPER) ∧
    (∀ v, env "TRADING_MODE" = some v → v ≠ "paper" → v ≠ "live" →
      v ≠ "backtest" →
      ∃ e, Config.init env s = .error e ∧ e.kind = "ValueError") := by
  refine ⟨?_, ?_, ?_⟩
  · intro m hm
    cases m <;>
      simp [Config.init, getenv, hm, TradingMode.ofValue, TradingMode.value]
  · intro h
    simp [Config.init, getenv, h, TradingMode.ofValue]
  · intro v hv h1 h2 h3
    simp [Config.init, getenv, hv, TradingMode.ofValue, h1, h2, h3]

/-- C1, witness: the amended theorem applied at concrete environments — a
valid "live" mode resolves to LIVE, and the unrecognized "turbo" raises. -/
theorem c1_mode_resolution_witness :
    (∃ r, Config.init envLive fb0 = .ok r ∧ r.1.mode = TradingMode.LIVE) ∧
    (∃ e, Config.init envBad fb0 = .error e ∧ e.kind = "ValueError") :=
  ⟨(c1_mode_resolution envLive fb0).1 TradingMode.LIVE rfl,
   (c1_mode_resolution envBad fb0).2.2 "turbo" rfl (by decide) (by decide)
     (by decide)⟩

/-! Claim C4 -/

/-- C4: whenever credential resolution returned `None` or the resolved
credentials carry an empty project id, `_init_firebase` leaves the firestore
client `None`, records the "local mode" warning, and makes no SDK call (the
SDK state is returned unchanged — in particular no app construction
happens). -/
theorem c4_local_mode (fc : Option FirebaseConfig) (s : FBState)
    (h : fc = none ∨ ∃ c, fc = some c ∧ c.project_id = "") :
    Config.init_firebase fc s = (none, s, [localModeWarning]) := by
  rcases h with rfl | ⟨c, rfl, hc⟩
  · rfl
  · simp [Config.init_firebase, hc]

/-- C4, witness: the theorem applied to absent credentials and a fresh SDK
state. -/
theorem c4_local_mode_witness :
    Config.init_firebase none fb0 = (none, fb0, [localModeWarning]) :=
  c4_local_mode none fb0 (Or.inl rfl)

/-! Claim C5 -/

/-- C5: for every value of the private-key environment variable, `from_env`
places into the credential record the value with each literal backslash-n
escape replaced by a real newline: the leftmost escape after an escape-free
prefix becomes a newline with replacement continuing beyond it, and a key with
no escape sequences is passed through unchanged. -/
theorem c5_private_key_normalization (env : Env) (key : String)
    (hk : env "FIREBASE_PRIVATE_KEY" = some key) :
    ∃ fc, FirebaseConfig.from_env env = some fc ∧
      fc.private_key = pyReplaceBN key ∧
      (∀ a b, key.data = a ++ '\\' :: 'n' :: b → hasBN a = false →
        fc.private_key = (a ++ '\n' :: replBN b).asString) ∧
      (hasBN key.data = false → fc.private_key = key) := by
  refine ⟨_, rfl, ?_, ?_, ?_⟩
  · simp [getenv, hk]
  · intro a b hab ha
    simp [getenv, hk, pyReplaceBN, hab, replBN_append a b ha]
  · intro h
    simp only [getenv, hk, Option.getD_some, pyReplaceBN,
      replBN_of_not_hasBN key.data h]
    rfl

/-- C5, witness: the theorem applied to an environment whose private key
"abc" has no escape sequences; it is passed through unchanged. -/
theorem c5_private_key_normalization_witness :
    ∃ fc, FirebaseConfig.from_env envKey = some fc ∧
      fc.private_key = pyReplaceBN "abc" ∧
      (∀ a b, ("abc" : String).data = a ++ '\\' :: 'n' :: b → hasBN a = false →
        fc.private_key = (a ++ '\n' :: replBN b).asString) ∧
      (hasBN ("abc" : String).data = false → fc.private_key = "abc") :=
  c5_private_key_normalization envKey "abc" rfl

/-! Claim C7 -/

/-- C7: `info` on a logger whose firestore client is `None` emits exactly one
console line carrying the message and performs no remote-client invocation at
all, returning normally. -/
theorem c7_info_console_only (lg : EcosystemLogger) (now : Nat) (msg : String)
    (kw : Kwargs) (h : lg.firestore_client = none) :
    lg.info now msg kw = ([.consoleLine "INFO" msg], .ok ()) := by
  simp [EcosystemLogger.info, EcosystemLogger.log_to_firestore, h]

/-- C7, witness: the theorem applied to the concrete client-less logger. -/
theorem c7_info_console_only_witness :
    lgNone.info 0 "x" Kwargs.none_ = ([.consoleLine "INFO" "x"], .ok ()) :=
  c7_info_console_only lgNone 0 "x" Kwargs.none_ rfl

/-! Claim C2 -/

/-- C2: on every level method of a logger with a bound remote client whose
write raises, the call emits the console line for the original message first,
then the single remote write attempt, then a console-only failure note — no
second remote write — and returns normally (`ok`, no exception to the
caller). -/
theorem c2_remote_failure_contained (lg : EcosystemLogger) (cl : Client)
    (e : PyExn) (now : Nat) (msg : String) (kw : Kwargs) (err : Option PyExn)
    (hcl : lg.firestore_client = some cl) (hf : cl.addFails = some e) :
    lg.info now msg kw =
      ([.consoleLine "INFO" msg,
        .remoteAdd "ecosystem_logs" (lg.mkEntry now "INFO" msg kw none),
        .consoleLine "ERROR" ("Failed to log to Firestore: " ++ e.str)],
       .ok ()) ∧
    lg.warning now msg kw =
      ([.consoleLine "WARNING" msg,
        .remoteAdd "ecosystem_logs" (lg.mkEntry now "WARNING" msg kw none),
        .consoleLine "ERROR" ("Failed to log to Firestore: " ++ e.str)],
       .ok ()) ∧
    lg.error now msg err kw =
      ([.consoleLine "ERROR" (msg ++ ": " ++ pyStrOpt (err.map PyExn.str)),
        .remoteAdd "ecosystem_logs"
          (lg.mkEntry now "ERROR" msg kw (err.map PyExn.str)),
        .consoleLine "ERROR" ("Failed to log to Firestore: " ++ e.str)],
       .ok ()) ∧
    lg.critical now msg kw =
      ([.consoleLine "CRITICAL" msg,
        .remoteAdd "ecosystem_logs" (lg.mkEntry now "CRITICAL" msg kw none),
        .consoleLine "ERROR" ("Failed to log to Firestore: " ++ e.str)],
       .ok ()) := by
  have hadd : cl.add = .error e := by simp [Client.add, hf]
  refine ⟨?_, ?_, ?_, ?_⟩ <;>
    simp [EcosystemLogger.info, EcosystemLogger.warning, EcosystemLogger.error,
      EcosystemLogger.critical, EcosystemLogger.log_to_firestore, hcl, hadd]

/-- C2, witness: the theorem applied to the concrete logger bound to an
always-failing client. -/
theorem c2_remote_failure_contained_witness :
    lgBad.info 5 "m" Kwargs.none_ =
      ([.consoleLine "INFO" "m",
        .remoteAdd "ecosystem_logs" (lgBad.mkEntry 5 "INFO" "m" Kwargs.none_ none),
        .consoleLine "ERROR"
          ("Failed to log to Firestore: " ++
            PyExn.str { kind := "RuntimeError", msg := "down" })],
       .ok ()) ∧
    lgBad.warning 5 "m" Kwargs.none_ =
      ([.consoleLine "WARNING" "m",
        .remoteAdd "ecosystem_logs"
          (lgBad.mkEntry 5 "WARNING" "m" Kwargs.none_ none),
        .consoleLine "ERROR"
          ("Failed to log to Firestore: " ++
            PyExn.str { kind := "RuntimeError", msg := "down" })],
       .ok ()) ∧
    lgBad.error 5 "m" none Kwargs.none_ =
      ([.consoleLine "ERROR" ("m" ++ ": " ++ pyStrOpt (Option.map PyExn.str none)),
        .remoteAdd "ecosystem_logs"
          (lgBad.mkEntry 5 "ERROR" "m" Kwargs.none_ (Option.map PyExn.str none)),
        .consoleLine "ERROR"
          ("Failed to log to Firestore: " ++
            PyExn.str { kind := "RuntimeError", msg := "down" })],
       .ok ()) ∧
    lgBad.critical 5 "m" Kwargs.none_ =
      ([.consoleLine "CRITICAL" "m",
        .remoteAdd "ecosystem_logs"
          (lgBad.mkEntry 5 "CRITICAL" "m" Kwargs.none_ none),
        .consoleLine "ERROR"
          ("Failed to log to Firestore: " ++
            PyExn.str { kind := "RuntimeError", msg := "down" })],
       .ok ()) :=
  c2_remote_failure_contained lgBad clBad
    { kind := "RuntimeError", msg := "down" } 5 "m" Kwargs.none_ none rfl rfl

/-! Claim C6 -/

/-- C6: `error(m, error=e)` on a logger with a bound remote client writes a
LogEntry whose error_details equals `str(e)` and whose level is "ERROR"
(regardless of whether the remote write itself then succeeds or raises). -/
theorem c6_error_entry_fields (lg : EcosystemLogger) (cl : Client) (e : PyExn)
    (now : Nat) (msg : String) (kw : Kwargs)
    (hcl : lg.firestore_client = some cl) :
    ∃ entry,
      Event.remoteAdd "ecosystem_logs" entry ∈ (lg.error now msg (some e) kw).1 ∧
      entry.error_details = some (PyExn.str e) ∧ entry.level = "ERROR" := by
  refine ⟨lg.mkEntry now "ERROR" msg kw (some e.str), ?_, rfl, rfl⟩
  cases hadd : cl.add with
  | ok u =>
    simp [EcosystemLogger.error, EcosystemLogger.log_to_firestore, hcl, hadd]
  | error ex =>
    simp [EcosystemLogger.error, EcosystemLogger.log_to_firestore, hcl, hadd]

/-- C6, witness: the theorem applied to the healthy-client logger and a
concrete exception. -/
theorem c6_error_entry_fields_witness :
    ∃ entry,
      Event.remoteAdd "ecosystem_logs" entry ∈
        (lgOk.error 3 "x" (some { kind := "SomeFailure", msg := "y" })
          Kwargs.none_).1 ∧
      entry.error_details = some (PyExn.str { kind := "SomeFailure", msg := "y" }) ∧
      entry.level = "ERROR" :=
  c6_error_entry_fields lgOk clOk { kind := "SomeFailure", msg := "y" } 3 "x"
    Kwargs.none_ rfl

/-! Claim C8 -/

/-- C8: `error(m)` without an error object writes a LogEntry whose
error_details is `None` — in particular it is never the string "None". -/
theorem c8_no_error_null_details (lg : EcosystemLogger) (cl : Client)
    (now : Nat) (msg : String) (kw : Kwargs)
    (hcl : lg.firestore_client = some cl) :
    ∃ entry,
      Event.remoteAdd "ecosystem_logs" entry ∈ (lg.error now msg none kw).1 ∧
      entry.error_details = none ∧ entry.error_details ≠ some "None" := by
  refine ⟨lg.mkEntry now "ERROR" msg kw none, ?_, rfl, by simp [EcosystemLogger.mkEntry]⟩
  cases hadd : cl.add with
  | ok u =>
    simp [EcosystemLogger.error, EcosystemLogger.log_to_firestore, hcl, hadd]
  | error ex =>
    simp [EcosystemLogger.error, EcosystemLogger.log_to_firestore, hcl, hadd]

/-- C8, witness: the theorem applied to the healthy-client logger. -/
theorem c8_no_error_null_details_witness :
    ∃ entry,
      Event.remoteAdd "ecosystem_logs" entry ∈
        (lgOk.error 4 "x" none Kwargs.none_).1 ∧
      entry.error_details = none ∧ entry.error_details ≠ some "None" :=
  c8_no_error_null_details lgOk clOk 4 "x" Kwargs.none_ rfl

/-! Claim C9 -/

/-- C9: any two entries produced by two sequential calls on the same logger
under a non-decreasing clock carry non-decreasing timestamps, because each
entry's timestamp is the clock reading at its own emission. -/
theorem c9_nondecreasing_timestamps (lg : EcosystemLogger) (t1 t2 : Nat)
    (ht : t1 ≤ t2) (lv1 m1 lv2 m2 : String) (kw1 kw2 : Kwargs)
    (ed1 ed2 : Option String) (c1 c2 : String) (e1 e2 : LogEntry)
    (h1 : Event.remoteAdd c1 e1 ∈ (lg.log_to_firestore t1 lv1 m1 kw1 ed1).1)
    (h2 : Event.remoteAdd c2 e2 ∈ (lg.log_to_firestore t2 lv2 m2 kw2 ed2).1) :
    e1.timestamp ≤ e2.timestamp := by
  rw [timestamp_of_remoteAdd lg t1 lv1 m1 kw1 ed1 c1 e1 h1,
    timestamp_of_remoteAdd lg t2 lv2 m2 kw2 ed2 c2 e2 h2]
  exact ht

/-- C9, witness: the theorem applied to two concrete sequential emissions on
the healthy-client logger at clock readings 1 and 2. -/
theorem c9_nondecreasing_timestamps_witness :
    (lgOk.mkEntry 1 "INFO" "a" Kwargs.none_ none).timestamp ≤
      (lgOk.mkEntry 2 "INFO" "b" Kwargs.none_ none).timestamp :=
  c9_nondecreasing_timestamps lgOk 1 2 (by decide) "INFO" "a" "INFO" "b"
    Kwargs.none_ Kwargs.none_ none none "ecosystem_logs" "ecosystem_logs"
    (lgOk.mkEntry 1 "INFO" "a" Kwargs.none_ none)
    (lgOk.mkEntry 2 "INFO" "b" Kwargs.none_ none)
    (by decide) (by decide)

/-! Claim C10 -/

/-- C10: the logger constructor catches only ImportError from the shared
configuration import (leaving the client unbound); any other exception — such
as the ValueError raised while resolving an unrecognized TRADING_MODE during
module-level Config construction — propagates out of the constructor. -/
theorem c10_nonimport_propagates (name : String) (aid : Option String)
    (e : PyExn) :
    (e.kind ≠ "ImportError" →
      EcosystemLogger.init name aid (.error e) = .error e) ∧
    (e.kind = "ImportError" →
      EcosystemLogger.init name aid (.error e) =
        .ok { component_name := name, agent_id := aid, firestore_client := none }) ∧
    (∀ env s e2, Config.init env s = .error e2 → e2.kind ≠ "ImportError" →
      EcosystemLogger.initFromConfig name aid env s = .error e2) := by
  refine ⟨?_, ?_, ?_⟩
  · intro h
    simp [EcosystemLogger.init, h]
  · intro h
    simp [EcosystemLogger.init, h]
  · intro env s e2 hc h
    simp [EcosystemLogger.initFromConfig, hc, Except.map, EcosystemLogger.init, h]

/-- C10, witness: constructing a logger over the unrecognized-mode environment
propagates the ValueError from Config construction. -/
theorem c10_nonimport_propagates_witness :
    EcosystemLogger.initFromConfig "core" none envBad fb0 =
      .error { kind := "ValueError", msg := "turbo is not a valid TradingMode" } :=
  (c10_nonimport_propagates "core" none
      { kind := "ValueError", msg := "turbo is not a valid TradingMode" }).2.2
    envBad fb0 { kind := "ValueError", msg := "turbo is not a valid TradingMode" }
    rfl (by decide)

/-! Claim C3 -/

/-- C3: constructing `Config` twice in the same process (threading the SDK
state), with credentials present, a non-empty project id and a resolvable
mode, performs exactly one underlying app construction: after the first run
the app count and construction count are 1, and the second run detects the
already-registered app, leaves the SDK state unchanged, and reuses the same
client. -/
theorem c3_single_construction (env : Env) (cl : Client) (pid : String)
    (m : TradingMode) (hpid : env "FIREBASE_PROJECT_ID" = some pid)
    (hne : pid ≠ "")
    (hm : TradingMode.ofValue (getenv env "TRADING_MODE" "paper") = .ok m) :
    ∃ r1 r2,
      Config.init env
          { apps := 0, appConstructions := 0, client := cl, certFails := none } =
        .ok r1 ∧
      Config.init env r1.2.1 = .ok r2 ∧
      r1.2.1.appConstructions = 1 ∧ r2.2.1.appConstructions = 1 ∧
      r2.2.1 = r1.2.1 ∧ r2.1.firestore_client = some cl := by
  have hg : getenv env "FIREBASE_PROJECT_ID" "" = pid := by simp [getenv, hpid]
  have h1 : Config.init_firebase (FirebaseConfig.from_env env)
      { apps := 0, appConstructions := 0, client := cl, certFails := none } =
      (some cl,
       { apps := 1, appConstructions := 1, client := cl, certFails := none },
       ["Firebase Firestore initialized successfully"]) := by
    simp [FirebaseConfig.from_env, Config.init_firebase, hg, hne, initApp]
  have h2 : Config.init_firebase (FirebaseConfig.from_env env)
      { apps := 1, appConstructions := 1, client := cl, certFails := none } =
      (some cl,
       { apps := 1, appConstructions := 1, client := cl, certFails := none },
       ["Firebase Firestore initialized successfully"]) := by
    simp [FirebaseConfig.from_env, Config.init_firebase, hg, hne]
  refine
    ⟨({ mode := m, exchange_name := getenv env "EXCHANGE_NAME" "binance",
        log_level := getenv env "LOG_LEVEL" "INFO",
        firebase_config := FirebaseConfig.from_env env,
        firestore_client := some cl },
      { apps := 1, appConstructions := 1, client := cl, certFails := none },
      ["Firebase Firestore initialized successfully"]),
     ({ mode := m, exchange_name := getenv env "EXCHANGE_NAME" "binance",
        log_level := getenv env "LOG_LEVEL" "INFO",
        firebase_config := FirebaseConfig.from_env env,
        firestore_client := some cl },
      { apps := 1, appConstructions := 1, client := cl, certFails := none },
      ["Firebase Firestore initialized successfully"]),
     ?_, ?_, rfl, rfl, rfl, rfl⟩
  · simp [Config.init, hm, h1]
  · simp [Config.init, hm, h2]

/-- C3, witness: the theorem applied to the live-mode environment with project
id "proj" and a fresh SDK state. -/
theorem c3_single_construction_witness :
    ∃ r1 r2,
      Config.init envLive
          { apps := 0, appConstructions := 0,
            client := { addFails := none }, certFails := none } =
        .ok r1 ∧
      Config.init envLive r1.2.1 = .ok r2 ∧
      r1.2.1.appConstructions = 1 ∧ r2.2.1.appConstructions = 1 ∧
      r2.2.1 = r1.2.1 ∧ r2.1.firestore_client = some { addFails := none } :=
  c3_single_construction envLive { addFails := none } "proj" TradingMode.LIVE
    rfl (by decide) rfl

end ATEE
